import Mathlib

set_option maxRecDepth 8000

/-!
Verification of the recurring work-generation scheduler of the CMMS backend
(`app/services/pm_scheduler.py` and `app/services/cycle_count_scheduler.py`)
against its natural-language specification.

The Python sources are shallowly embedded as executable Lean definitions:
  * dates are triples (year, month, day); `datetime.date` comparison and
    `timedelta` arithmetic are expressed through the proleptic Gregorian
    ordinal (`Date.toOrdinal`, the embedding of Python's `date.toordinal`);
  * `datetime` timestamps that the scheduler only ever filters at day
    granularity are modelled as `Date` values;
  * float-valued meter readings are modelled as integers: the scheduler only
    compares and adds them, and every claim under study uses values on which
    float arithmetic is exact;
  * fallible database calls are modelled by an explicit environment telling
    which call raises, and functions return `Option`/`Except` accordingly.
-/

/-! ## Calendar arithmetic (embedding of the date handling in
`PMScheduler._calculate_next_due_date` and `_advance_date`) -/

structure Date where
  year : Nat
  month : Nat
  day : Nat
deriving DecidableEq, BEq

/-- Gregorian leap-year rule (Python `calendar.isleap`). -/
def isLeapYear (y : Nat) : Bool :=
  (y % 4 == 0 && y % 100 != 0) || (y % 400 == 0)

/-- Embedding of `calendar.monthrange(y, m)[1]`: number of days in month `m` of year `y`. -/
def daysInMonth (y m : Nat) : Nat :=
  match m with
  | 1 => 31
  | 2 => if isLeapYear y then 29 else 28
  | 3 => 31
  | 4 => 30
  | 5 => 31
  | 6 => 30
  | 7 => 31
  | 8 => 31
  | 9 => 30
  | 10 => 31
  | 11 => 30
  | 12 => 31
  | _ => 0

/-- The dates representable by Python's `datetime.date` (year bounds aside). -/
def Date.isValid (d : Date) : Bool :=
  1 ≤ d.year && 1 ≤ d.month && d.month ≤ 12 && 1 ≤ d.day &&
    d.day ≤ daysInMonth d.year d.month

/-- Days in year `y` strictly before month `m` (cumulative month lengths). -/
def daysBeforeMonth (y m : Nat) : Nat :=
  (match m with
   | 1 => 0
   | 2 => 31
   | 3 => 59
   | 4 => 90
   | 5 => 120
   | 6 => 151
   | 7 => 181
   | 8 => 212
   | 9 => 243
   | 10 => 273
   | 11 => 304
   | 12 => 334
   | _ => 365)
  + (if 3 ≤ m && isLeapYear y then 1 else 0)

/-- Days strictly before January 1 of year `y` (proleptic Gregorian). -/
def daysBeforeYear (y : Nat) : Nat :=
  (y - 1) * 365 + (y - 1) / 4 - (y - 1) / 100 + (y - 1) / 400

/-- Embedding of Python's `date.toordinal`: day 1 is 0001-01-01.  Python
compares `date` objects and applies `timedelta(days=k)` on this ordinal. -/
def Date.toOrdinal (d : Date) : Nat :=
  daysBeforeYear d.year + daysBeforeMonth d.year d.month + d.day

/-- The value `today.weekday() + 1` as used by the scheduler: 1 = Monday … 7 = Sunday
(ordinal 1, 0001-01-01, is a Monday in the proleptic Gregorian calendar). -/
def Date.isoWeekday (d : Date) : Nat :=
  (d.toOrdinal - 1) % 7 + 1

/-- The calendar successor of a date (`d + timedelta(days=1)`). -/
def Date.nextDay (d : Date) : Date :=
  if d.day < daysInMonth d.year d.month then ⟨d.year, d.month, d.day + 1⟩
  else if d.month < 12 then ⟨d.year, d.month + 1, 1⟩
  else ⟨d.year + 1, 1, 1⟩

/-- Day addition `d + timedelta(days=n)` for `n ≥ 0`. -/
def Date.addDays : Date → Nat → Date
  | d, 0 => d
  | d, n + 1 => (Date.addDays d n).nextDay

/-- The MONTHS branch shared by `PMScheduler._calculate_next_due_date` and
`_advance_date`:
`month = base.month + q; year = base.year + (month-1)//12;
 month = ((month-1) % 12) + 1; day = min(base.day, monthrange(year, month))`. -/
def Date.addMonths (d : Date) (q : Nat) : Date :=
  let m0 := d.month + q
  let year := d.year + (m0 - 1) / 12
  let month := (m0 - 1) % 12 + 1
  let maxDay := daysInMonth year month
  ⟨year, month, min d.day maxDay⟩

/-- The YEARS branch of `PMScheduler._calculate_next_due_date`:
`date(base.year + q, base.month, base.day)`, falling back to day 28 when that
raises `ValueError` (Feb 29 mapped into a non-leap year). -/
def Date.addYears (d : Date) (q : Nat) : Date :=
  if (Date.mk (d.year + q) d.month d.day).isValid then
    ⟨d.year + q, d.month, d.day⟩
  else
    ⟨d.year + q, d.month, 28⟩

/-! ## Calendar lemmas -/

theorem daysInMonth_ge (y m : Nat) (h1 : 1 ≤ m) (h2 : m ≤ 12) :
    28 ≤ daysInMonth y m := by
  interval_cases m <;> simp [daysInMonth] <;> cases isLeapYear y <;> simp

theorem daysInMonth_le (y m : Nat) (h1 : 1 ≤ m) (h2 : m ≤ 12) :
    daysInMonth y m ≤ 31 := by
  interval_cases m <;> simp [daysInMonth] <;> cases isLeapYear y <;> simp

set_option maxHeartbeats 1000000 in
theorem daysBeforeYear_succ (y : Nat) (h : 1 ≤ y) :
    daysBeforeYear (y + 1) =
      daysBeforeYear y + 365 + (if isLeapYear y then 1 else 0) := by
  have hiff : isLeapYear y = true ↔
      ((y % 4 = 0 ∧ ¬ y % 100 = 0) ∨ y % 400 = 0) := by
    simp [isLeapYear]
  cases hL : isLeapYear y
  · rw [hL] at hiff
    simp only [Bool.false_eq_true, false_iff, not_or, not_and_or, not_not] at hiff
    simp only [daysBeforeYear, Nat.add_sub_cancel, Bool.false_eq_true, if_false]
    omega
  · rw [hL] at hiff
    simp only [true_iff] at hiff
    simp only [daysBeforeYear, Nat.add_sub_cancel, if_true]
    omega

theorem daysBeforeMonth_succ (y m : Nat) (h1 : 1 ≤ m) (h2 : m ≤ 11) :
    daysBeforeMonth y (m + 1) = daysBeforeMonth y m + daysInMonth y m := by
  interval_cases m <;>
    cases hL : isLeapYear y <;> simp [daysBeforeMonth, daysInMonth, hL]

theorem daysBeforeMonth_one (y : Nat) : daysBeforeMonth y 1 = 0 := by
  simp [daysBeforeMonth]

theorem daysBeforeMonth_year (y : Nat) :
    daysBeforeMonth y 12 + daysInMonth y 12 =
      365 + (if isLeapYear y then 1 else 0) := by
  cases hL : isLeapYear y <;> simp [daysBeforeMonth, daysInMonth, hL]

theorem Date.isValid_iff (d : Date) :
    d.isValid = true ↔
      1 ≤ d.year ∧ 1 ≤ d.month ∧ d.month ≤ 12 ∧ 1 ≤ d.day ∧
        d.day ≤ daysInMonth d.year d.month := by
  simp [Date.isValid, and_assoc]

theorem Date.toOrdinal_mk (y m dd : Nat) :
    (Date.mk y m dd).toOrdinal = daysBeforeYear y + daysBeforeMonth y m + dd :=
  rfl

theorem Date.nextDay_valid (d : Date) (hv : d.isValid = true) :
    d.nextDay.isValid = true := by
  rw [Date.isValid_iff] at hv
  obtain ⟨hy, hm1, hm2, hd1, hd2⟩ := hv
  unfold Date.nextDay
  split
  · simp only [Date.isValid_iff]
    exact ⟨hy, hm1, hm2, by omega, by omega⟩
  · split
    · have h28 := daysInMonth_ge d.year (d.month + 1) (by omega) (by omega)
      simp only [Date.isValid_iff]
      exact ⟨hy, by omega, by omega, by omega, by omega⟩
    · have h28 := daysInMonth_ge (d.year + 1) 1 (by omega) (by omega)
      simp only [Date.isValid_iff]
      exact ⟨by omega, by omega, by omega, by omega, by omega⟩

theorem Date.toOrdinal_nextDay (d : Date) (hv : d.isValid = true) :
    d.nextDay.toOrdinal = d.toOrdinal + 1 := by
  rw [Date.isValid_iff] at hv
  obtain ⟨hy, hm1, hm2, hd1, hd2⟩ := hv
  unfold Date.nextDay
  split
  · simp only [Date.toOrdinal_mk, Date.toOrdinal]
    omega
  · rename_i hlt
    split
    · rename_i hm12
      have hday : d.day = daysInMonth d.year d.month := by omega
      have hsucc := daysBeforeMonth_succ d.year d.month hm1 (by omega)
      simp only [Date.toOrdinal_mk, Date.toOrdinal]
      omega
    · rename_i hm12
      have hmeq : d.month = 12 := by omega
      have hday : d.day = 31 := by
        rw [hmeq] at hd2 hlt; simp [daysInMonth] at hd2 hlt; omega
      have hsucc := daysBeforeYear_succ d.year hy
      have hyr := daysBeforeMonth_year d.year
      have h1 := daysBeforeMonth_one (d.year + 1)
      have hd12 : daysInMonth d.year 12 = 31 := by simp [daysInMonth]
      simp only [Date.toOrdinal_mk, Date.toOrdinal, hmeq, hday, h1]
      cases hL : isLeapYear d.year <;> rw [hL] at hsucc hyr <;>
        simp at hsucc hyr <;> omega

theorem Date.addDays_valid (d : Date) (n : Nat) (hv : d.isValid = true) :
    (d.addDays n).isValid = true := by
  induction n with
  | zero => exact hv
  | succ k ih => exact Date.nextDay_valid _ ih

theorem Date.toOrdinal_addDays (d : Date) (n : Nat) (hv : d.isValid = true) :
    (d.addDays n).toOrdinal = d.toOrdinal + n := by
  induction n with
  | zero => rfl
  | succ k ih =>
    have hvk := Date.addDays_valid d k hv
    show ((d.addDays k).nextDay).toOrdinal = d.toOrdinal + (k + 1)
    rw [Date.toOrdinal_nextDay _ hvk, ih]
    omega

/-- Ordinal of the last day before month number `i` (months counted from
January of year 1, so month index `i` is month `i % 12 + 1` of year
`i / 12 + 1`). -/
def monthStartOrd (i : Nat) : Nat :=
  daysBeforeYear (i / 12 + 1) + daysBeforeMonth (i / 12 + 1) (i % 12 + 1)

theorem monthStartOrd_succ (i : Nat) :
    monthStartOrd (i + 1) =
      monthStartOrd i + daysInMonth (i / 12 + 1) (i % 12 + 1) := by
  rcases Nat.lt_or_ge (i % 12) 11 with h | h
  · have h1 : (i + 1) / 12 = i / 12 := by omega
    have h2 : (i + 1) % 12 = i % 12 + 1 := by omega
    have hs := daysBeforeMonth_succ (i / 12 + 1) (i % 12 + 1) (by omega) (by omega)
    simp only [monthStartOrd, h1, h2]
    omega
  · have h1 : (i + 1) / 12 = i / 12 + 1 := by omega
    have h2 : (i + 1) % 12 + 1 = 1 := by omega
    have h3 : i % 12 + 1 = 12 := by omega
    have hsucc := daysBeforeYear_succ (i / 12 + 1) (by omega)
    have hyr := daysBeforeMonth_year (i / 12 + 1)
    have hone := daysBeforeMonth_one (i / 12 + 1 + 1)
    simp only [monthStartOrd, h1, h2, h3, hone]
    cases hL : isLeapYear (i / 12 + 1) <;> rw [hL] at hsucc hyr <;>
      simp at hsucc hyr <;> omega

theorem monthStartOrd_le_succ (i : Nat) :
    monthStartOrd i + 28 ≤ monthStartOrd (i + 1) := by
  have h := monthStartOrd_succ i
  have hg := daysInMonth_ge (i / 12 + 1) (i % 12 + 1) (by omega) (by omega)
  omega

theorem monthStartOrd_add (i k : Nat) :
    monthStartOrd i + 28 * k ≤ monthStartOrd (i + k) := by
  induction k with
  | zero => simp
  | succ n ih =>
    have h := monthStartOrd_le_succ (i + n)
    have h2 : i + (n + 1) = i + n + 1 := rfl
    rw [h2]
    omega

theorem monthStartOrd_base (y m : Nat) (hy : 1 ≤ y) (hm1 : 1 ≤ m)
    (hm2 : m ≤ 12) :
    monthStartOrd ((y - 1) * 12 + (m - 1)) =
      daysBeforeYear y + daysBeforeMonth y m := by
  have hdiv : ((y - 1) * 12 + (m - 1)) / 12 + 1 = y := by omega
  have hmod : ((y - 1) * 12 + (m - 1)) % 12 + 1 = m := by omega
  simp only [monthStartOrd, hdiv, hmod]

theorem monthStartOrd_dim (y m : Nat) (hy : 1 ≤ y) (hm1 : 1 ≤ m)
    (hm2 : m ≤ 12) :
    monthStartOrd ((y - 1) * 12 + (m - 1) + 1) =
      daysBeforeYear y + daysBeforeMonth y m + daysInMonth y m := by
  have hs := monthStartOrd_succ ((y - 1) * 12 + (m - 1))
  have hdiv : ((y - 1) * 12 + (m - 1)) / 12 + 1 = y := by omega
  have hmod : ((y - 1) * 12 + (m - 1)) % 12 + 1 = m := by omega
  rw [hdiv, hmod] at hs
  rw [hs, monthStartOrd_base y m hy hm1 hm2]

theorem Date.addMonths_eq (d : Date) (q : Nat) :
    d.addMonths q =
      Date.mk (d.year + (d.month + q - 1) / 12) ((d.month + q - 1) % 12 + 1)
        (min d.day (daysInMonth (d.year + (d.month + q - 1) / 12)
          ((d.month + q - 1) % 12 + 1))) :=
  rfl

theorem Date.toOrdinal_addMonths_lt (d : Date) (q : Nat)
    (hv : d.isValid = true) (hq : 1 ≤ q) :
    d.toOrdinal < (d.addMonths q).toOrdinal := by
  rw [Date.isValid_iff] at hv
  obtain ⟨hy, hm1, hm2, hd1, hd2⟩ := hv
  rw [Date.addMonths_eq, Date.toOrdinal_mk]
  have hb := monthStartOrd_base (d.year + (d.month + q - 1) / 12)
    ((d.month + q - 1) % 12 + 1) (by omega) (by omega) (by omega)
  have hidx : (d.year + (d.month + q - 1) / 12 - 1) * 12 +
      ((d.month + q - 1) % 12 + 1 - 1) =
      (d.year - 1) * 12 + (d.month - 1) + q := by omega
  rw [hidx] at hb
  have h1 := monthStartOrd_add ((d.year - 1) * 12 + (d.month - 1) + 1) (q - 1)
  have h2 := monthStartOrd_dim d.year d.month hy hm1 hm2
  have h3 : (d.year - 1) * 12 + (d.month - 1) + 1 + (q - 1) =
      (d.year - 1) * 12 + (d.month - 1) + q := by omega
  rw [h3] at h1
  have hmin : 1 ≤ min d.day (daysInMonth (d.year + (d.month + q - 1) / 12)
      ((d.month + q - 1) % 12 + 1)) := by
    have := daysInMonth_ge (d.year + (d.month + q - 1) / 12)
      ((d.month + q - 1) % 12 + 1) (by omega) (by omega)
    omega
  simp only [Date.toOrdinal]
  omega

theorem daysBeforeMonth_diff (y1 y2 m : Nat) :
    daysBeforeMonth y1 m ≤ daysBeforeMonth y2 m + 1 := by
  unfold daysBeforeMonth
  have h1 : (if 3 ≤ m && isLeapYear y1 then 1 else 0) ≤ 1 := by
    split <;> omega
  omega

theorem daysBeforeYear_ge (y q : Nat) (hy : 1 ≤ y) :
    daysBeforeYear y + 365 * q ≤ daysBeforeYear (y + q) := by
  induction q with
  | zero => simp
  | succ n ih =>
    have hs := daysBeforeYear_succ (y + n) (by omega)
    have h2 : y + (n + 1) = y + n + 1 := rfl
    rw [h2, hs]
    have hb : 0 ≤ (if isLeapYear (y + n) then 1 else 0) := by omega
    omega

theorem Date.toOrdinal_addYears_lt (d : Date) (q : Nat)
    (hv : d.isValid = true) (hq : 1 ≤ q) :
    d.toOrdinal < (d.addYears q).toOrdinal := by
  rw [Date.isValid_iff] at hv
  obtain ⟨hy, hm1, hm2, hd1, hd2⟩ := hv
  have hdim31 := daysInMonth_le d.year d.month hm1 hm2
  have hge := daysBeforeYear_ge d.year q hy
  have hdiff := daysBeforeMonth_diff d.year (d.year + q) d.month
  unfold Date.addYears
  split
  · rw [Date.toOrdinal_mk]
    simp only [Date.toOrdinal]
    omega
  · rw [Date.toOrdinal_mk]
    simp only [Date.toOrdinal]
    omega

theorem daysInMonth_eq_of_ne_two (y1 y2 m : Nat) (hm1 : 1 ≤ m)
    (hm2 : m ≤ 12) (h : m ≠ 2) : daysInMonth y1 m = daysInMonth y2 m := by
  interval_cases m <;> simp [daysInMonth] at h ⊢

theorem Date.addMonths_valid (d : Date) (q : Nat) (hv : d.isValid = true) :
    (d.addMonths q).isValid = true := by
  rw [Date.isValid_iff] at hv
  obtain ⟨hy, hm1, hm2, hd1, hd2⟩ := hv
  rw [Date.addMonths_eq]
  have hg := daysInMonth_ge (d.year + (d.month + q - 1) / 12)
    ((d.month + q - 1) % 12 + 1) (by omega) (by omega)
  simp only [Date.isValid_iff]
  exact ⟨by omega, by omega, by omega, by omega, by omega⟩

theorem Date.addYears_spec (d : Date) (q : Nat) (hv : d.isValid = true) :
    d.addYears q =
      Date.mk (d.year + q) d.month
        (if d.month = 2 ∧ d.day = 29 ∧ isLeapYear (d.year + q) = false then 28
         else d.day) := by
  rw [Date.isValid_iff] at hv
  obtain ⟨hy, hm1, hm2, hd1, hd2⟩ := hv
  unfold Date.addYears
  split
  · rename_i hval
    simp only [Date.isValid_iff] at hval
    obtain ⟨_, _, _, _, hle⟩ := hval
    have hcond : ¬ (d.month = 2 ∧ d.day = 29 ∧
        isLeapYear (d.year + q) = false) := by
      rintro ⟨hm2', h29, hnl⟩
      rw [hm2', h29] at hle
      simp [daysInMonth, hnl] at hle
    rw [if_neg hcond]
  · rename_i hval
    have hfail : ¬ d.day ≤ daysInMonth (d.year + q) d.month := by
      intro hle
      apply hval
      simp only [Date.isValid_iff]
      exact ⟨by omega, by omega, by omega, by omega, hle⟩
    by_cases hm2' : d.month = 2
    · rw [hm2'] at hfail hd2
      have hle29 : d.day ≤ 29 := by
        by_cases hL2 : isLeapYear d.year = true
        · simp [daysInMonth, hL2] at hd2
          omega
        · simp only [Bool.not_eq_true] at hL2
          simp [daysInMonth, hL2] at hd2
          omega
      by_cases hL : isLeapYear (d.year + q) = true
      · exfalso
        apply hfail
        simp [daysInMonth, hL]
        omega
      · simp only [Bool.not_eq_true] at hL
        have h28 : daysInMonth (d.year + q) 2 = 28 := by
          simp [daysInMonth, hL]
        rw [h28] at hfail
        have h29 : d.day = 29 := by omega
        rw [if_pos ⟨hm2', h29, hL⟩]
    · exfalso
      apply hfail
      rw [daysInMonth_eq_of_ne_two (d.year + q) d.year d.month hm1 hm2 hm2']
      exact hd2

/-! ## Maintenance scheduler data model (embedding of
`app/models/preventive_maintenance.py`, `app/models/asset.py`,
`app/models/work_order.py`, `app/models/scheduler_control.py`) -/

inductive PMTriggerType
  | TIME
  | METER
  | CONDITION
  | TIME_OR_METER
  | TIME_AND_METER
deriving DecidableEq, BEq

inductive PMScheduleType
  | FIXED
  | FLOATING
deriving DecidableEq, BEq

inductive PMFrequencyUnit
  | DAYS
  | WEEKS
  | MONTHS
  | YEARS
deriving DecidableEq, BEq

inductive WorkOrderType
  | CORRECTIVE
  | PREVENTIVE
  | PREDICTIVE
  | EMERGENCY
  | PROJECT
  | INSPECTION
  | CALIBRATION
deriving DecidableEq, BEq

inductive WorkOrderStatus
  | DRAFT
  | WAITING_APPROVAL
  | APPROVED
  | SCHEDULED
  | IN_PROGRESS
  | ON_HOLD
  | COMPLETED
  | CLOSED
  | CANCELLED
deriving DecidableEq, BEq

structure SchedulerControl where
  organizationId : Nat
  pausePm : Bool
  pauseCycleCounts : Bool
deriving DecidableEq, BEq

/-- A meter row; `last_reading` is a float column, modelled as an integer
(the scheduler only compares readings and adds the meter interval). -/
structure Meter where
  id : Nat
  lastReading : Option Int
deriving DecidableEq, BEq

structure JobPlanTask where
  sequence : Nat
  description : String
  instructions : Option String
  taskType : String
  expectedValue : Option String
  estimatedHours : Option Int
deriving DecidableEq, BEq

/-- A job plan with its eagerly loaded `tasks` relationship. -/
structure JobPlan where
  id : Nat
  tasks : List JobPlanTask
deriving DecidableEq, BEq

/-- The `excluded_days` JSON column,
`{"weekdays": [...], "dates": [...]}`; a missing or empty (falsy) dict is
modelled as `none`, and excluded ISO date strings as the dates they denote. -/
structure ExcludedDays where
  weekdays : List Nat
  dates : List Date
deriving DecidableEq, BEq

structure PreventiveMaintenance where
  id : Nat
  organizationId : Nat
  pmNumber : String
  name : String
  description : Option String
  assetId : Option Nat
  locationId : Option Nat
  jobPlan : Option JobPlan
  triggerType : PMTriggerType
  scheduleType : PMScheduleType
  frequency : Option Nat
  frequencyUnit : Option PMFrequencyUnit
  meterId : Option Nat
  meterInterval : Option Int
  lastWoDate : Option Date
  lastWoId : Option Nat
  nextDueDate : Option Date
  lastMeterReading : Option Int
  nextMeterReading : Option Int
  leadTimeDays : Nat
  assignedToId : Option Nat
  assignedTeam : Option String
  priority : String
  estimatedHours : Option Int
  seasonalStartMonth : Option Nat
  seasonalEndMonth : Option Nat
  excludedDays : Option ExcludedDays
  isActive : Bool
deriving DecidableEq, BEq

structure WorkOrder where
  id : Nat
  organizationId : Nat
  woNumber : String
  title : String
  description : Option String
  workType : WorkOrderType
  status : WorkOrderStatus
  priority : String
  assetId : Option Nat
  locationId : Option Nat
  assignedToId : Option Nat
  assignedTeam : Option String
  estimatedHours : Option Int
  pmId : Option Nat
  dueDate : Option Date
deriving DecidableEq, BEq

structure WorkOrderTask where
  workOrderId : Nat
  sequence : Nat
  description : String
  instructions : Option String
  taskType : String
  expectedValue : Option String
  estimatedHours : Option Int
deriving DecidableEq, BEq

/-- Python truthiness of an optional integer column (`None` and `0` falsy). -/
def optNatTruthy : Option Nat → Bool
  | none => false
  | some n => n != 0

def optIntTruthy : Option Int → Bool
  | none => false
  | some i => i != 0

/-! ## Trigger evaluator (embedding of `PMScheduler._should_generate_wo`,
`_check_meter_trigger`, `_check_condition_trigger`) -/

/-- Embedding of `PMScheduler._check_meter_trigger` (pm_scheduler.py lines 145-167). -/
def checkMeterTrigger (meters : List Meter)
    (pm : PreventiveMaintenance) : Bool :=
  match pm.meterId, pm.meterInterval with
  | some mid, some interval =>
    if mid == 0 || interval == 0 then false
    else
      match meters.find? (fun m => m.id == mid) with
      | none => false
      | some meter =>
        match meter.lastReading with
        | none => false
        | some reading =>
          match pm.nextMeterReading with
          | some target => decide (target ≤ reading)
          | none => false
  | _, _ => false

/-- Embedding of `PMScheduler._check_condition_trigger`: a placeholder in the source that
always returns `False`. -/
def checkConditionTrigger (pm : PreventiveMaintenance) : Bool :=
  false

/-- The seasonal gate of `_should_generate_wo` (lines 98-108); `true` means
the month window blocks generation. -/
def seasonalBlocked (pm : PreventiveMaintenance) (today : Date) : Bool :=
  match pm.seasonalStartMonth, pm.seasonalEndMonth with
  | some s, some e =>
    if s == 0 || e == 0 then false
    else if s ≤ e then !(s ≤ today.month && today.month ≤ e)
    else !(s ≤ today.month || today.month ≤ e)
  | _, _ => false

/-- The excluded-day gate of `_should_generate_wo` (lines 110-119); `true`
means today's weekday or ISO date is excluded. -/
def excludedBlocked (pm : PreventiveMaintenance) (today : Date) : Bool :=
  match pm.excludedDays with
  | none => false
  | some ex =>
    ex.weekdays.contains today.isoWeekday || ex.dates.contains today

/-- Embedding of `PMScheduler._should_generate_wo` (pm_scheduler.py lines 80-143).
`lead_date = next_due_date - timedelta(days=lead_time_days)` and the date
comparisons are expressed on proleptic Gregorian ordinals, which is exactly
how Python `date`/`timedelta` arithmetic is defined. -/
def shouldGenerateWo (meters : List Meter) (pm : PreventiveMaintenance)
    (today : Date) : Bool :=
  match pm.nextDueDate with
  | none => false
  | some nextDue =>
    if (today.toOrdinal : Int) <
        (nextDue.toOrdinal : Int) - (pm.leadTimeDays : Int) then false
    else if seasonalBlocked pm today then false
    else if excludedBlocked pm today then false
    else
      match pm.triggerType with
      | .TIME => true
      | .METER => checkMeterTrigger meters pm
      | .TIME_OR_METER =>
        if nextDue.toOrdinal ≤ today.toOrdinal then true
        else checkMeterTrigger meters pm
      | .TIME_AND_METER =>
        if today.toOrdinal < nextDue.toOrdinal then false
        else checkMeterTrigger meters pm
      | .CONDITION => checkConditionTrigger pm

/-- Embedding of `PMScheduler._calculate_next_due_date` (pm_scheduler.py lines 257-297). -/
def calculateNextDueDate (pm : PreventiveMaintenance) (today : Date) :
    Option Date :=
  match pm.frequency, pm.frequencyUnit with
  | some freq, some unit =>
    let base :=
      match pm.scheduleType with
      | .FIXED => pm.nextDueDate.getD today
      | .FLOATING => today
    match unit with
    | .DAYS => some (base.addDays freq)
    | .WEEKS => some (base.addDays (7 * freq))
    | .MONTHS => some (base.addMonths freq)
    | .YEARS => some (base.addYears freq)
  | _, _ => none

/-! ## Generator and scheduler loop (embedding of
`PMScheduler._generate_work_order` and `PMScheduler.process_due_pms`) -/

/-- Failure oracle for the database calls inside the `try` block of
`_generate_work_order`: the work-order count query (line 192), `db.flush`
(line 218) and the meter re-read (line 243).  A `false` field means that
call raises; the `except` handler catches it, logs and returns `None`. -/
structure GenEnv where
  countQueryOk : Bool
  flushOk : Bool
  meterQueryOk : Bool
deriving DecidableEq, BEq

/-- Left-pad with zeros: the `f"WO-{n:06d}"` format of line 197. -/
def padNum6 (n : Nat) : String :=
  let s := toString n
  String.mk (List.replicate (6 - s.length) '0') ++ s

/-- What `_generate_work_order` leaves behind: the returned id (`None` on a
caught exception), the PM object as mutated in the session, and the rows
added to the session. -/
structure GenResult where
  woId : Option Nat
  pm : PreventiveMaintenance
  newWorkOrders : List WorkOrder
  newTasks : List WorkOrderTask
deriving DecidableEq, BEq

/-- Embedding of `PMScheduler._generate_work_order` (lines 182-255).
`existingWos` is the work-order table seen by the numbering count query
(inserts flushed earlier in the same transaction are visible), `newId` the
id `db.flush` assigns to the inserted row.  A raise before the tracking
update leaves the PM unchanged; the meter re-read raising after the
tracking update (line 243) is caught too, but the session keeps both the
flushed work order and the already-advanced schedule state. -/
def generateWorkOrder (env : GenEnv) (meters : List Meter)
    (existingWos : List WorkOrder) (newId : Nat)
    (pm : PreventiveMaintenance) (today : Date) : GenResult :=
  if !env.countQueryOk then ⟨none, pm, [], []⟩
  else
    let woCount := (existingWos.filter
      (fun w => w.organizationId == pm.organizationId)).length
    let workOrder : WorkOrder :=
      { id := newId
        organizationId := pm.organizationId
        woNumber := "WO-" ++ padNum6 (woCount + 1)
        title := "PM: " ++ pm.name
        description := pm.description
        workType := WorkOrderType.PREVENTIVE
        status := WorkOrderStatus.APPROVED
        priority := pm.priority
        assetId := pm.assetId
        locationId := pm.locationId
        assignedToId := pm.assignedToId
        assignedTeam := pm.assignedTeam
        estimatedHours := pm.estimatedHours
        pmId := some pm.id
        dueDate := pm.nextDueDate }
    if !env.flushOk then ⟨none, pm, [], []⟩
    else
      let tasks : List WorkOrderTask :=
        match pm.jobPlan with
        | some jp => jp.tasks.map (fun t =>
            { workOrderId := newId
              sequence := t.sequence
              description := t.description
              instructions := t.instructions
              taskType := t.taskType
              expectedValue := t.expectedValue
              estimatedHours := t.estimatedHours })
        | none => []
      let pm1 := { pm with
        lastWoDate := some today
        lastWoId := some newId
        nextDueDate := calculateNextDueDate pm today }
      match pm.meterId, pm.meterInterval with
      | some mid, some interval =>
        if mid == 0 || interval == 0 then ⟨some newId, pm1, [workOrder], tasks⟩
        else if !env.meterQueryOk then ⟨none, pm1, [workOrder], tasks⟩
        else
          match meters.find? (fun m => m.id == mid) with
          | some meter =>
            match meter.lastReading with
            | some reading =>
              ⟨some newId,
               { pm1 with
                 lastMeterReading := some reading
                 nextMeterReading := some (reading + interval) },
               [workOrder], tasks⟩
            | none => ⟨some newId, pm1, [workOrder], tasks⟩
          | none => ⟨some newId, pm1, [workOrder], tasks⟩
      | _, _ => ⟨some newId, pm1, [workOrder], tasks⟩

/-- Session-level events the loop issues, used to express where the
transaction boundary sits. -/
inductive DbEvent
  | genWO (pmId : Nat) (woId : Nat)
  | commit
deriving DecidableEq, BEq

/-- The persistent store touched by `process_due_pms`. -/
structure PMStore where
  controls : List SchedulerControl
  pms : List PreventiveMaintenance
  meters : List Meter
  workOrders : List WorkOrder
  workOrderTasks : List WorkOrderTask
  nextWoId : Nat
deriving DecidableEq, BEq

/-- State threaded through the `for pm in pms` loop of `process_due_pms`. -/
structure LoopState where
  pms : List PreventiveMaintenance
  workOrders : List WorkOrder
  workOrderTasks : List WorkOrderTask
  nextWoId : Nat
  generated : List Nat
  events : List DbEvent
deriving DecidableEq, BEq

/-- One iteration of the loop body of `process_due_pms` (lines 64-74) over
one PM row, including the per-organization pause check against the controls
cache.  PMs filtered out by the due query (inactive or null
`next_due_date`) pass through untouched. -/
def processOnePm (env : Nat → GenEnv) (controls : List SchedulerControl)
    (meters : List Meter) (today : Date) (st : LoopState)
    (pm : PreventiveMaintenance) : LoopState :=
  if !(pm.isActive && pm.nextDueDate.isSome) then
    { st with pms := st.pms ++ [pm] }
  else
    let paused :=
      match controls.find? (fun c => c.organizationId == pm.organizationId) with
      | some c => c.pausePm
      | none => false
    if paused then { st with pms := st.pms ++ [pm] }
    else if shouldGenerateWo meters pm today then
      let g := generateWorkOrder (env pm.id) meters st.workOrders
        st.nextWoId pm today
      let st1 := { st with
        pms := st.pms ++ [g.pm]
        workOrders := st.workOrders ++ g.newWorkOrders
        workOrderTasks := st.workOrderTasks ++ g.newTasks
        nextWoId := st.nextWoId + g.newWorkOrders.length }
      match g.woId with
      | some woId =>
        if woId != 0 then
          { st1 with
            generated := st1.generated ++ [woId]
            events := st1.events ++ [DbEvent.genWO pm.id woId] }
        else st1
      | none => st1
    else { st with pms := st.pms ++ [pm] }

/-- Result of one `process_due_pms` cycle: the returned work-order ids, the
committed store, and the session events in order. -/
structure RunResult where
  generated : List Nat
  store : PMStore
  events : List DbEvent
deriving DecidableEq, BEq

/-- Embedding of `PMScheduler.process_due_pms` (pm_scheduler.py lines
41-78): load the controls cache, select the active PMs with a non-null
`next_due_date`, run the loop body over each in order, then issue the
single `db.commit()` of line 76. -/
def processDuePms (env : Nat → GenEnv) (db : PMStore) (today : Date) :
    RunResult :=
  let final := db.pms.foldl
    (processOnePm env db.controls db.meters today)
    { pms := [], workOrders := db.workOrders,
      workOrderTasks := db.workOrderTasks, nextWoId := db.nextWoId,
      generated := [], events := [] }
  { generated := final.generated
    store := { db with
      pms := final.pms
      workOrders := final.workOrders
      workOrderTasks := final.workOrderTasks
      nextWoId := final.nextWoId }
    events := final.events ++ [DbEvent.commit] }

/-- The all-clear failure oracle: no database call raises. -/
def envOk : Nat → GenEnv :=
  fun _ => ⟨true, true, true⟩

/-! ## Cycle-count scheduler data model.  `Organization`, `Storeroom`,
`StockLevel`, `Part` and `MaterialTransaction` embed the columns the
scheduler touches from `app/models/organization.py`,
`app/models/inventory.py` and `app/models/work_order.py`.  The
`CycleCount*` ORM classes are imported by the scheduler but their model
file is not part of the sources at hand, so those records are modelled from
the specification (§3 CountPlan / GeneratedArtifact) plus the field
accesses in `cycle_count_scheduler.py`. -/

structure Organization where
  id : Nat
deriving DecidableEq, BEq

structure Storeroom where
  id : Nat
  organizationId : Nat
  isDefault : Bool
deriving DecidableEq, BEq

/-- Stock level row; `current_balance` is a float column modelled as an
integer (only copied, never computed on). -/
structure StockLevel where
  id : Nat
  partId : Nat
  storeroomId : Nat
  currentBalance : Int
  binLocation : Option String
  lastReceiptDate : Option Date
  lastIssueDate : Option Date
deriving DecidableEq, BEq

/-- The `Part` master record (the Lean name `Part` is taken by Mathlib). -/
structure InvPart where
  id : Nat
  organizationId : Nat
  partNumber : String
  name : String
  partType : String
  categoryId : Option Nat
deriving DecidableEq, BEq

/-- Material usage transaction; `created_at` is a timestamp that the
scheduler only ever filters by day, so it is modelled at day granularity. -/
structure MaterialTransaction where
  organizationId : Nat
  partId : Nat
  storeroomId : Option Nat
  transactionType : String
  createdAt : Date
deriving DecidableEq, BEq

/-- Modelled from the spec: frequency units of a CountPlan
(days/weeks/months/years, §3); the model file declaring
`CycleCountFrequencyUnit` is not among the sources. -/
inductive CycleCountFrequencyUnit
  | DAYS
  | WEEKS
  | MONTHS
  | YEARS
deriving DecidableEq, BEq

/-- Modelled from the spec: count-session lifecycle states; the scheduler
only creates sessions in the PLANNED state (§4.4). -/
inductive CycleCountStatus
  | PLANNED
  | IN_PROGRESS
  | COMPLETED
  | CANCELLED
deriving DecidableEq, BEq

/-- Modelled from the spec: the CountPlan record (§3) with the columns the
scheduler reads and writes in `cycle_count_scheduler.py`.  `binPfx` stands
for the `bin_prefix` column. -/
structure CycleCountPlan where
  id : Nat
  organizationId : Nat
  name : String
  description : Option String
  storeroomId : Option Nat
  isActive : Bool
  isPaused : Bool
  frequencyValue : Nat
  frequencyUnit : CycleCountFrequencyUnit
  nextRunDate : Option Date
  lastRunAt : Option Date
  binPfx : Option String
  categoryIds : Option (List Nat)
  partTypeFilter : Option String
  usedInLastDays : Option Nat
  usageStartDate : Option Date
  usageEndDate : Option Date
  transactedOnly : Bool
  includeZeroMovement : Bool
  lineLimit : Option Nat
  templateType : Option String
deriving DecidableEq, BEq

/-- Modelled from the spec: the count-session header created by
`_create_cycle_count_from_plan` (its constructor arguments are visible in
the scheduler source). -/
structure CycleCount where
  id : Nat
  organizationId : Nat
  name : String
  description : Option String
  status : CycleCountStatus
  storeroomId : Option Nat
  scheduledDate : Date
  binPfx : Option String
  categoryIds : Option (List Nat)
  partTypeFilter : Option String
  usedInLastDays : Option Nat
  usageStartDate : Option Date
  usageEndDate : Option Date
  includeZeroMovement : Bool
  transactedOnly : Bool
  lineLimit : Option Nat
  totalLines : Nat
deriving DecidableEq, BEq

/-- Modelled from the spec: a count-session line snapshot (constructor
arguments visible in the scheduler source); `expected_quantity` is a float
column modelled as an integer. -/
structure CycleCountLine where
  organizationId : Nat
  cycleCountId : Nat
  partId : Nat
  stockLevelId : Nat
  expectedQuantity : Int
  binLocation : Option String
  needsRecount : Bool
  partNumber : String
  partName : String
  partType : String
  partCategoryId : Option Nat
  lastIssueDate : Option Date
  lastReceiptDate : Option Date
deriving DecidableEq, BEq

/-- The persistent store touched by the cycle-count scheduler. -/
structure CCStore where
  orgs : List Organization
  storerooms : List Storeroom
  plans : List CycleCountPlan
  stockLevels : List StockLevel
  parts : List InvPart
  transactions : List MaterialTransaction
  controls : List SchedulerControl
  cycleCounts : List CycleCount
  cycleCountLines : List CycleCountLine
  nextPlanId : Nat
  nextCcId : Nat
deriving DecidableEq, BEq

/-- Left-pad a number with zeros to `k` digits. -/
def padZeros (k n : Nat) : String :=
  let s := toString n
  String.mk (List.replicate (k - s.length) '0') ++ s

/-- Python `date.isoformat()`. -/
def Date.isoFormat (d : Date) : String :=
  padZeros 4 d.year ++ "-" ++ padZeros 2 d.month ++ "-" ++ padZeros 2 d.day

/-- SQL `ILIKE 'pfx%'`: case-insensitive prefix match. -/
def ilikePfx (s pfx : String) : Bool :=
  s.toLower.startsWith pfx.toLower

/-- Python truthiness of an optional string (`None` and `""` falsy). -/
def optStrTruthy : Option String → Bool
  | none => false
  | some s => !s.isEmpty

/-- Python truthiness of an optional JSON list (`None` and `[]` falsy). -/
def optListTruthy : Option (List Nat) → Bool
  | none => false
  | some l => !l.isEmpty

/-! ## Cycle-count scheduler operations (embedding of
`cycle_count_scheduler.py`) -/

/-- Embedding of `_advance_date` (cycle_count_scheduler.py lines 106-119).
The source has no YEARS branch: any unit other than DAYS, WEEKS or MONTHS
falls through to `return current`. -/
def advanceDate (current : Date) (value : Nat)
    (unit : CycleCountFrequencyUnit) : Date :=
  match unit with
  | .DAYS => current.addDays value
  | .WEEKS => current.addDays (7 * value)
  | .MONTHS => current.addMonths value
  | .YEARS => current

/-- Embedding of `_select_stock_for_plan` (lines 122-164): the stock/part
join with the plan's filters, mirroring the query built filter by filter. -/
def selectStockForPlan (db : CCStore) (plan : CycleCountPlan) (now : Date) :
    List (StockLevel × InvPart) :=
  let rows := db.stockLevels.filterMap (fun s =>
    match db.parts.find? (fun p => p.id == s.partId) with
    | some p =>
      if p.organizationId == plan.organizationId then some (s, p) else none
    | none => none)
  let rows :=
    match plan.storeroomId with
    | some sid =>
      if sid != 0 then rows.filter (fun r => r.1.storeroomId == sid) else rows
    | none => rows
  let rows :=
    match plan.binPfx with
    | some pfx =>
      if !pfx.isEmpty then
        rows.filter (fun r =>
          match r.1.binLocation with
          | some b => ilikePfx b pfx
          | none => false)
      else rows
    | none => rows
  let rows :=
    match plan.categoryIds with
    | some cats =>
      if !cats.isEmpty then
        rows.filter (fun r =>
          match r.2.categoryId with
          | some c => cats.contains c
          | none => false)
      else rows
    | none => rows
  let rows :=
    match plan.partTypeFilter with
    | some pt =>
      if !pt.isEmpty then rows.filter (fun r => r.2.partType == pt) else rows
    | none => rows
  let rows :=
    if optNatTruthy plan.usedInLastDays || plan.usageStartDate.isSome ||
        plan.usageEndDate.isSome || plan.transactedOnly then
      let usage : List MaterialTransaction := db.transactions.filter (fun t =>
        t.organizationId == plan.organizationId)
      let usage : List MaterialTransaction :=
        match plan.storeroomId with
        | some sid =>
          if sid != 0 then usage.filter (fun t => t.storeroomId == some sid)
          else usage
        | none => usage
      let usage : List MaterialTransaction :=
        match plan.usedInLastDays with
        | some k =>
          if k != 0 then
            usage.filter (fun t =>
              (now.toOrdinal : Int) - (k : Int) ≤ (t.createdAt.toOrdinal : Int))
          else usage
        | none => usage
      let usage : List MaterialTransaction :=
        match plan.usageStartDate with
        | some sd =>
          usage.filter (fun t => sd.toOrdinal ≤ t.createdAt.toOrdinal)
        | none => usage
      let usage : List MaterialTransaction :=
        match plan.usageEndDate with
        | some ed =>
          usage.filter (fun t => t.createdAt.toOrdinal ≤ ed.toOrdinal)
        | none => usage
      let usage : List MaterialTransaction :=
        if plan.transactedOnly then
          usage.filter (fun t => t.transactionType == "ISSUE")
        else usage
      let ids := usage.map (fun t => t.partId)
      rows.filter (fun r => ids.contains r.1.partId)
    else if !plan.includeZeroMovement then
      rows.filter (fun r =>
        r.1.lastIssueDate.isSome || r.1.lastReceiptDate.isSome)
    else rows
  match plan.lineLimit with
  | some n => if n != 0 then rows.take n else rows
  | none => rows

/-- What `_create_cycle_count_from_plan` leaves behind: the returned id
(`None` when the candidate set is empty), the plan as mutated in the
session, and the rows added to the session. -/
structure CCGenResult where
  ccId : Option Nat
  plan : CycleCountPlan
  newCounts : List CycleCount
  newLines : List CycleCountLine
deriving DecidableEq, BEq

/-- Embedding of `_create_cycle_count_from_plan` (lines 167-218); `newId` is
the id `db.flush` assigns to the inserted session header. -/
def createCycleCountFromPlan (db : CCStore) (plan : CycleCountPlan)
    (today now : Date) (newId : Nat) : CCGenResult :=
  match selectStockForPlan db plan now with
  | [] => ⟨none, plan, [], []⟩
  | r0 :: rest =>
    let stockRows := r0 :: rest
    let cycleCount : CycleCount :=
      { id := newId
        organizationId := plan.organizationId
        name := plan.name ++ " - " ++ today.isoFormat
        description := plan.description
        status := CycleCountStatus.PLANNED
        storeroomId :=
          match plan.storeroomId with
          | some sid => if sid != 0 then some sid else some r0.1.storeroomId
          | none => some r0.1.storeroomId
        scheduledDate := today
        binPfx := plan.binPfx
        categoryIds := plan.categoryIds
        partTypeFilter := plan.partTypeFilter
        usedInLastDays := plan.usedInLastDays
        usageStartDate := plan.usageStartDate
        usageEndDate := plan.usageEndDate
        includeZeroMovement := plan.includeZeroMovement
        transactedOnly := plan.transactedOnly
        lineLimit := plan.lineLimit
        totalLines := stockRows.length }
    let lines := stockRows.map (fun r =>
      { organizationId := plan.organizationId
        cycleCountId := newId
        partId := r.2.id
        stockLevelId := r.1.id
        expectedQuantity := r.1.currentBalance
        binLocation := r.1.binLocation
        needsRecount := false
        partNumber := r.2.partNumber
        partName := r.2.name
        partType := r.2.partType
        partCategoryId := r.2.categoryId
        lastIssueDate := r.1.lastIssueDate
        lastReceiptDate := r.1.lastReceiptDate : CycleCountLine })
    let plan1 := { plan with
      lastRunAt := some now
      nextRunDate := some (advanceDate (plan.nextRunDate.getD today)
        plan.frequencyValue plan.frequencyUnit) }
    ⟨some newId, plan1, [cycleCount], lines⟩

/-- Error propagating out of a scheduler cycle, e.g. `scalar_one_or_none`
finding several rows. -/
inductive DbError
  | multipleResults
deriving DecidableEq, BEq

/-- The weekly default plan `_ensure_default_plans` inserts (lines 60-77). -/
def weeklyDefaultPlan (orgId storeroomId nid : Nat) (today : Date) :
    CycleCountPlan :=
  { id := nid
    organizationId := orgId
    name := "Weekly Transacted Inventory"
    description := some "Auto-generated: items issued in last 7 days"
    storeroomId := some storeroomId
    isActive := true
    isPaused := false
    frequencyValue := 7
    frequencyUnit := CycleCountFrequencyUnit.DAYS
    nextRunDate := some today
    lastRunAt := none
    binPfx := none
    categoryIds := none
    partTypeFilter := none
    usedInLastDays := some 7
    usageStartDate := none
    usageEndDate := none
    transactedOnly := true
    includeZeroMovement := false
    lineLimit := none
    templateType := some "WEEKLY_TRANSACTED" }

/-- The monthly default plan `_ensure_default_plans` inserts (lines 86-103). -/
def monthlyDefaultPlan (orgId storeroomId nid : Nat) (today : Date) :
    CycleCountPlan :=
  { id := nid
    organizationId := orgId
    name := "Monthly Transacted Inventory"
    description := some "Auto-generated: items issued in last 30 days"
    storeroomId := some storeroomId
    isActive := true
    isPaused := false
    frequencyValue := 1
    frequencyUnit := CycleCountFrequencyUnit.MONTHS
    nextRunDate := some today
    lastRunAt := none
    binPfx := none
    categoryIds := none
    partTypeFilter := none
    usedInLastDays := some 30
    usageStartDate := none
    usageEndDate := none
    transactedOnly := true
    includeZeroMovement := false
    lineLimit := none
    templateType := some "MONTHLY_TRANSACTED" }

/-- The body of the `for org in orgs` loop of `_ensure_default_plans`
(lines 44-103): find the organization's default storeroom with
`scalar_one_or_none` (raising on several), then insert whichever of the two
template plans is missing.  The running plans list plays the role of the
session the count queries see. -/
def ensureOrgDefaults (db : CCStore) (today : Date)
    (acc : List CycleCountPlan × Nat) (org : Organization) :
    Except DbError (List CycleCountPlan × Nat) :=
  match db.storerooms.filter
      (fun s => s.organizationId == org.id && s.isDefault) with
  | [] => Except.ok acc
  | [storeroom] =>
    let weeklyMissing := (acc.1.filter (fun p =>
      p.organizationId == org.id &&
        p.templateType == some "WEEKLY_TRANSACTED")).length == 0
    let plans1 :=
      if weeklyMissing then
        acc.1 ++ [weeklyDefaultPlan org.id storeroom.id acc.2 today]
      else acc.1
    let nid1 := if weeklyMissing then acc.2 + 1 else acc.2
    let monthlyMissing := (plans1.filter (fun p =>
      p.organizationId == org.id &&
        p.templateType == some "MONTHLY_TRANSACTED")).length == 0
    let plans2 :=
      if monthlyMissing then
        plans1 ++ [monthlyDefaultPlan org.id storeroom.id nid1 today]
      else plans1
    let nid2 := if monthlyMissing then nid1 + 1 else nid1
    Except.ok (plans2, nid2)
  | _ => Except.error DbError.multipleResults

/-- The `for org in orgs` loop of `_ensure_default_plans`: run the body
over each organization in order, letting a raise propagate. -/
def ensureFold (db : CCStore) (today : Date) :
    List Organization → List CycleCountPlan × Nat →
      Except DbError (List CycleCountPlan × Nat)
  | [], acc => Except.ok acc
  | org :: rest, acc =>
    match ensureOrgDefaults db today acc org with
    | Except.ok acc1 => ensureFold db today rest acc1
    | Except.error e => Except.error e

/-- Embedding of `_ensure_default_plans` (lines 33-103). -/
def ensureDefaultPlans (db : CCStore) (today : Date) :
    Except DbError CCStore :=
  match ensureFold db today db.orgs (db.plans, db.nextPlanId) with
  | Except.ok (plans, nid) =>
    Except.ok { db with plans := plans, nextPlanId := nid }
  | Except.error e => Except.error e

/-- State threaded through the `for plan in plans` loop of
`process_due_plans`. -/
structure CCLoopState where
  plans : List CycleCountPlan
  cycleCounts : List CycleCount
  cycleCountLines : List CycleCountLine
  nextCcId : Nat
  generated : List Nat
deriving DecidableEq, BEq

/-- One iteration of the loop body of `process_due_plans` (lines 242-255):
the pause checks, then `_create_cycle_count_from_plan` inside the per-plan
`try`/`except`.  Plans filtered out by the due query (inactive, null or
future `next_run_date`) pass through untouched. -/
def processOnePlan (controls : List SchedulerControl) (db : CCStore)
    (today now : Date) (st : CCLoopState) (plan : CycleCountPlan) :
    CCLoopState :=
  let due :=
    plan.isActive &&
      (match plan.nextRunDate with
       | some d => d.toOrdinal ≤ today.toOrdinal
       | none => false)
  if !due then { st with plans := st.plans ++ [plan] }
  else
    let paused :=
      match controls.find? (fun c => c.organizationId == plan.organizationId) with
      | some c => c.pauseCycleCounts
      | none => false
    if paused then { st with plans := st.plans ++ [plan] }
    else if plan.isPaused then { st with plans := st.plans ++ [plan] }
    else
      let g := createCycleCountFromPlan db plan today now st.nextCcId
      let st1 := { st with
        plans := st.plans ++ [g.plan]
        cycleCounts := st.cycleCounts ++ g.newCounts
        cycleCountLines := st.cycleCountLines ++ g.newLines
        nextCcId := st.nextCcId + g.newCounts.length }
      match g.ccId with
      | some cid =>
        if cid != 0 then { st1 with generated := st1.generated ++ [cid] }
        else st1
      | none => st1

/-- Result of one `process_due_plans` cycle. -/
structure CCRunResult where
  generated : List Nat
  store : CCStore
deriving DecidableEq, BEq

/-- Embedding of `CycleCountScheduler.process_due_plans` (lines 225-259):
first `_ensure_default_plans`, then the controls load, the due-plan query
and the loop, with the single `db.commit()` of line 257 at the end. -/
def processDuePlans (db : CCStore) (today now : Date) :
    Except DbError CCRunResult :=
  match ensureDefaultPlans db today with
  | Except.error e => Except.error e
  | Except.ok db1 =>
    let final := db1.plans.foldl (processOnePlan db1.controls db1 today now)
      { plans := [], cycleCounts := db1.cycleCounts,
        cycleCountLines := db1.cycleCountLines, nextCcId := db1.nextCcId,
        generated := [] }
    Except.ok
      { generated := final.generated
        store := { db1 with
          plans := final.plans
          cycleCounts := final.cycleCounts
          cycleCountLines := final.cycleCountLines
          nextCcId := final.nextCcId } }

/-! ## Concrete fixtures -/

/-- A minimal active TIME/FIXED definition, frequency 30 DAYS, due
2024-01-01, no lead time, used as base of the concrete fixtures. -/
def basePm : PreventiveMaintenance :=
  { id := 1
    organizationId := 1
    pmNumber := "PM-001"
    name := "Monthly lube"
    description := none
    assetId := none
    locationId := none
    jobPlan := none
    triggerType := PMTriggerType.TIME
    scheduleType := PMScheduleType.FIXED
    frequency := some 30
    frequencyUnit := some PMFrequencyUnit.DAYS
    meterId := none
    meterInterval := none
    lastWoDate := none
    lastWoId := none
    nextDueDate := some ⟨2024, 1, 1⟩
    lastMeterReading := none
    nextMeterReading := none
    leadTimeDays := 0
    assignedToId := none
    assignedTeam := none
    priority := "MEDIUM"
    estimatedHours := none
    seasonalStartMonth := none
    seasonalEndMonth := none
    excludedDays := none
    isActive := true }

/-- TIME_OR_METER definition whose time part is far in the future
(due 2024-06-01, no lead time) but whose meter target is reached. -/
def pmTimeOrMeter : PreventiveMaintenance :=
  { basePm with
    triggerType := PMTriggerType.TIME_OR_METER
    nextDueDate := some ⟨2024, 6, 1⟩
    meterId := some 1
    meterInterval := some 100
    nextMeterReading := some 100 }

/-- The referenced meter, reading 500 ≥ target 100. -/
def meterHigh : Meter := ⟨1, some 500⟩

/-- Single-definition store for the double-run experiment. -/
def storeC4 : PMStore :=
  { controls := []
    pms := [basePm]
    meters := []
    workOrders := []
    workOrderTasks := []
    nextWoId := 101 }

/-- An active weekly transacted-only count plan (storeroom 1, due
2024-01-01). -/
def emptyPlan : CycleCountPlan :=
  { id := 1
    organizationId := 1
    name := "Weekly Transacted Inventory"
    description := none
    storeroomId := some 1
    isActive := true
    isPaused := false
    frequencyValue := 7
    frequencyUnit := CycleCountFrequencyUnit.DAYS
    nextRunDate := some ⟨2024, 1, 1⟩
    lastRunAt := none
    binPfx := none
    categoryIds := none
    partTypeFilter := none
    usedInLastDays := some 7
    usageStartDate := none
    usageEndDate := none
    transactedOnly := true
    includeZeroMovement := false
    lineLimit := none
    templateType := some "WEEKLY_TRANSACTED" }

/-- A store holding that plan and no stock at all, so its selection is
empty. -/
def storeC2 : CCStore :=
  { orgs := [⟨1⟩]
    storerooms := [⟨1, 1, true⟩]
    plans := [emptyPlan]
    stockLevels := []
    parts := []
    transactions := []
    controls := []
    cycleCounts := []
    cycleCountLines := []
    nextPlanId := 10
    nextCcId := 1 }

/-- Same tenant layout with no plans at all: `_ensure_default_plans` must
insert both template plans. -/
def storeC10 : CCStore := { storeC2 with plans := [] }

/-- PM with an attached meter whose re-read will raise. -/
def pmMeterFail : PreventiveMaintenance :=
  { basePm with meterId := some 1, meterInterval := some 100 }

/-- Oracle failing exactly the meter re-read of line 243. -/
def envMeterFail : GenEnv := ⟨true, true, false⟩

/-- Time-relevant definition with a due date but no frequency configured. -/
def pmNoFreq : PreventiveMaintenance := { basePm with frequency := none }

/-! ## Claim theorems -/

/-- C1: for a TIME_OR_METER definition the spec demands that the meter test
make the definition due even when today is before `nextDueDate - leadTimeDays`.
In the code the lead-time early return of `_should_generate_wo` (line 95)
runs before the trigger-kind dispatch, so with the meter test passing
(reading 500 ≥ target 100) and today 2024-01-01 before the lead date
2024-06-01, `_should_generate_wo` still returns `False` — contradicting the
source's own "First trigger wins" / "Either condition triggers" comments. -/
theorem c1_time_or_meter_lead_gate :
    pmTimeOrMeter.triggerType = PMTriggerType.TIME_OR_METER ∧
    checkMeterTrigger [meterHigh] pmTimeOrMeter = true ∧
    shouldGenerateWo [meterHigh] pmTimeOrMeter ⟨2024, 1, 1⟩ = false := by
  decide

/-- C2 counterexample: on a plan whose selection is empty
(`storeC2` holds no stock at all), `_create_cycle_count_from_plan` creates
no session, and — against the claim — does *not* advance `nextRunDate` by
one frequency step: the plan keeps 2024-01-01 instead of moving to
2024-01-08. -/
theorem c2_counterexample :
    (createCycleCountFromPlan storeC2 emptyPlan ⟨2024, 1, 8⟩ ⟨2024, 1, 8⟩
        1).ccId = none ∧
    ¬ ((createCycleCountFromPlan storeC2 emptyPlan ⟨2024, 1, 8⟩ ⟨2024, 1, 8⟩
        1).plan.nextRunDate =
      some (advanceDate ⟨2024, 1, 1⟩ 7 CycleCountFrequencyUnit.DAYS)) := by
  decide

/-- C2 as amended: a count plan whose filters match zero stock rows creates
no session and leaves the plan record — `nextRunDate` included — entirely
unchanged, so the same window is re-attempted at the next poll. -/
theorem c2_amended (db : CCStore) (plan : CycleCountPlan) (today now : Date)
    (newId : Nat) (h : selectStockForPlan db plan now = []) :
    createCycleCountFromPlan db plan today now newId =
      ⟨none, plan, [], []⟩ := by
  unfold createCycleCountFromPlan
  rw [h]

/-- C2 witness: the amended statement at the concrete empty store. -/
theorem c2_witness :
    createCycleCountFromPlan storeC2 emptyPlan ⟨2024, 1, 8⟩ ⟨2024, 1, 8⟩ 1 =
      ⟨none, emptyPlan, [], []⟩ :=
  c2_amended storeC2 emptyPlan ⟨2024, 1, 8⟩ ⟨2024, 1, 8⟩ 1 (by decide)

/-- C4 counterexample: running `process_due_pms` twice in immediate
succession over the single-definition `storeC4` (FIXED mode, frequency 30
DAYS, due 2024-01-01, today 2024-02-15) generates a work order on each run:
after the first run `nextDueDate` advances only to 2024-01-31, which is
still inside the window, so the same definition yields two artifacts. -/
theorem c4_counterexample :
    ((processDuePms envOk
        (processDuePms envOk storeC4 ⟨2024, 2, 15⟩).store
        ⟨2024, 2, 15⟩).store.workOrders.filter
      (fun w => w.pmId == some 1)).length = 2 := by
  decide

/-- C8 counterexample: when the meter re-read of line 243 raises, the
`except` handler reports no work order generated (`None`), yet the PM's
schedule state is *not* left unchanged — `nextDueDate` has already advanced
from 2024-01-01 to 2024-01-31 in the session, and the single commit at the
end of the cycle persists it. -/
theorem c8_counterexample :
    (generateWorkOrder envMeterFail [meterHigh] [] 101 pmMeterFail
        ⟨2024, 2, 15⟩).woId = none ∧
    ¬ ((generateWorkOrder envMeterFail [meterHigh] [] 101 pmMeterFail
        ⟨2024, 2, 15⟩).pm.nextDueDate = pmMeterFail.nextDueDate) := by
  decide

/-- C9 counterexample: a TIME-triggered (time-relevant) definition with
`nextDueDate = 2024-01-01` but no frequency configured is generated
(work order id returned), after which `_calculate_next_due_date` returns
`None` and the stored `nextDueDate` becomes null — neither strictly
advancing nor non-null. -/
theorem c9_counterexample :
    pmNoFreq.triggerType = PMTriggerType.TIME ∧
    pmNoFreq.nextDueDate = some ⟨2024, 1, 1⟩ ∧
    (generateWorkOrder (envOk 0) [] [] 101 pmNoFreq ⟨2024, 2, 15⟩).woId =
      some 101 ∧
    (generateWorkOrder (envOk 0) [] [] 101 pmNoFreq
      ⟨2024, 2, 15⟩).pm.nextDueDate = none := by
  decide

/-- Oracle failing exactly the numbering count query of line 192. -/
def envCountFail : GenEnv := ⟨false, true, true⟩

/-- Oracle failing only definition id 1's generation, at the count query. -/
def envFailFirst : Nat → GenEnv :=
  fun i => if i == 1 then envCountFail else ⟨true, true, true⟩

/-- Two-definition store: ids 1 and 2, both due on 2024-02-15. -/
def storeC3 : PMStore :=
  { storeC4 with
    pms := [basePm, { basePm with id := 2, pmNumber := "PM-002" }] }

/-- C8 as amended: a transient error is caught and the loop moves on, and
the failed definition's schedule state is unchanged when the raise happens
before the tracking update of line 235 (the numbering count query or the
flush); only the meter re-read of line 243 fails after it.  The concrete
conjuncts show the loop continuing: with definition 1's generation failing,
the cycle still generates for definition 2, and definition 1 keeps its
2024-01-01 due date while definition 2 advances. -/
theorem c8_amended (env : GenEnv) (meters : List Meter)
    (existingWos : List WorkOrder) (newId : Nat)
    (pm : PreventiveMaintenance) (today : Date)
    (h : env.countQueryOk = false ∨ env.flushOk = false) :
    generateWorkOrder env meters existingWos newId pm today =
      ⟨none, pm, [], []⟩ ∧
    (processDuePms envFailFirst storeC3 ⟨2024, 2, 15⟩).generated = [101] ∧
    ((processDuePms envFailFirst storeC3 ⟨2024, 2, 15⟩).store.pms.map
      (fun p => p.nextDueDate)) =
        [some ⟨2024, 1, 1⟩, some ⟨2024, 1, 31⟩] := by
  refine ⟨?_, by decide, by decide⟩
  obtain ⟨c, fl, mq⟩ := env
  rcases h with h | h
  · simp only at h
    subst h
    rfl
  · simp only at h
    subst h
    cases c <;> rfl

/-- C8 witness: the amended statement with the count query failing. -/
theorem c8_witness :
    generateWorkOrder envCountFail [meterHigh] [] 101 pmMeterFail
        ⟨2024, 2, 15⟩ = ⟨none, pmMeterFail, [], []⟩ ∧
    (processDuePms envFailFirst storeC3 ⟨2024, 2, 15⟩).generated = [101] :=
  ⟨(c8_amended envCountFail [meterHigh] [] 101 pmMeterFail ⟨2024, 2, 15⟩
      (Or.inl rfl)).1,
   (c8_amended envCountFail [meterHigh] [] 101 pmMeterFail ⟨2024, 2, 15⟩
      (Or.inl rfl)).2.1⟩

/-- C5 counterexample: the claim quantifies over every unit of both cited
implementations, but `_advance_date` (cycle_count_scheduler.py lines
106-119) has no YEARS branch and falls through to `return current`:
advancing 2024-02-29 by 1 YEARS there returns 2024-02-29 unchanged instead
of the 2025-02-28 the claim's YEARS clause demands. -/
theorem c5_counterexample :
    advanceDate ⟨2024, 2, 29⟩ 1 CycleCountFrequencyUnit.YEARS =
      ⟨2024, 2, 29⟩ ∧
    ¬ (advanceDate ⟨2024, 2, 29⟩ 1 CycleCountFrequencyUnit.YEARS =
      ⟨2025, 2, 28⟩) := by
  decide

/-- C5 as amended: for a valid base date and positive quantity, advancing
by MONTHS yields exactly `year = base.year + (base.month - 1 + q) / 12`,
`month = (base.month - 1 + q) % 12 + 1`,
`day = min(base.day, daysInMonth(newYear, newMonth))` — a valid date, so
the clamp never rolls into the following month — in both implementations
(`_calculate_next_due_date` and `_advance_date` share the MONTHS branch).
Advancing by YEARS in `PMScheduler._calculate_next_due_date` keeps
year + q, month and day, with the day clamped to 28 exactly when the
target would be Feb 29 of a non-leap year; `_advance_date`, however, has
no YEARS branch and returns the base date unchanged for YEARS.  The three
concrete spec cases hold for the PM scheduler's arithmetic. -/
theorem c5_calendar_advance (d : Date) (q : Nat) (hv : d.isValid = true)
    (hq : 1 ≤ q) :
    (d.addMonths q =
        Date.mk (d.year + (d.month - 1 + q) / 12) ((d.month - 1 + q) % 12 + 1)
          (min d.day (daysInMonth (d.year + (d.month - 1 + q) / 12)
            ((d.month - 1 + q) % 12 + 1))) ∧
      (d.addMonths q).isValid = true) ∧
    advanceDate d q CycleCountFrequencyUnit.MONTHS = d.addMonths q ∧
    d.addYears q =
      Date.mk (d.year + q) d.month
        (if d.month = 2 ∧ d.day = 29 ∧ isLeapYear (d.year + q) = false then 28
         else d.day) ∧
    advanceDate d q CycleCountFrequencyUnit.YEARS = d ∧
    (Date.mk 2024 1 31).addMonths 1 = ⟨2024, 2, 29⟩ ∧
    (Date.mk 2023 1 31).addMonths 1 = ⟨2023, 2, 28⟩ ∧
    (Date.mk 2024 2 29).addYears 1 = ⟨2025, 2, 28⟩ := by
  refine ⟨⟨?_, Date.addMonths_valid d q hv⟩, rfl, Date.addYears_spec d q hv,
    rfl, by decide, by decide, by decide⟩
  have hm1 : 1 ≤ d.month := ((Date.isValid_iff d).mp hv).2.1
  have harg : d.month - 1 + q = d.month + q - 1 := by omega
  rw [harg, Date.addMonths_eq]

/-- C5 witness: the generic MONTHS clamp applied at 2024-01-31 + 1 month. -/
theorem c5_witness :
    (Date.mk 2024 1 31).isValid = true ∧
    (Date.mk 2024 1 31).addMonths 1 = ⟨2024, 2, 29⟩ := by
  refine ⟨by decide, ?_⟩
  have h := c5_calendar_advance ⟨2024, 1, 31⟩ 1 (by decide) (by decide)
  rw [h.1.1]
  decide

/-- The `advance(base, quantity, unit)` operation as the specification
words it (§4.1), against which the source's next-due computation is
checked. -/
def advanceSpec (base : Date) (q : Nat) (u : PMFrequencyUnit) : Date :=
  match u with
  | .DAYS => base.addDays q
  | .WEEKS => base.addDays (7 * q)
  | .MONTHS => base.addMonths q
  | .YEARS => base.addYears q

theorem calculateNextDueDate_fixed (pm : PreventiveMaintenance)
    (today : Date) (f : Nat) (u : PMFrequencyUnit) (d : Date)
    (hmode : pm.scheduleType = PMScheduleType.FIXED)
    (hf : pm.frequency = some f) (hu : pm.frequencyUnit = some u)
    (hd : pm.nextDueDate = some d) :
    calculateNextDueDate pm today = some (advanceSpec d f u) := by
  unfold calculateNextDueDate advanceSpec
  rw [hf, hu, hmode, hd]
  cases u <;> rfl

theorem calculateNextDueDate_floating (pm : PreventiveMaintenance)
    (today : Date) (f : Nat) (u : PMFrequencyUnit)
    (hmode : pm.scheduleType = PMScheduleType.FLOATING)
    (hf : pm.frequency = some f) (hu : pm.frequencyUnit = some u) :
    calculateNextDueDate pm today = some (advanceSpec today f u) := by
  unfold calculateNextDueDate advanceSpec
  rw [hf, hu, hmode]
  cases u <;> rfl

/-- C6: with frequency and unit set, `_calculate_next_due_date` recomputes
the next due date from the schedule mode: FIXED advances the previous
`nextDueDate` (chaining off the schedule), FLOATING advances today.  The
concrete conjuncts are the spec's 30-DAYS example with day 0 = 2024-01-01:
FIXED mode generating on day 45 (2024-02-15) advances only to day 30
(2024-01-31), FLOATING mode to day 75 (2024-03-16). -/
theorem c6_fixed_floating (pm : PreventiveMaintenance) (today : Date)
    (f : Nat) (u : PMFrequencyUnit) (hf : pm.frequency = some f)
    (hu : pm.frequencyUnit = some u) :
    (pm.scheduleType = PMScheduleType.FIXED →
      ∀ d, pm.nextDueDate = some d →
        calculateNextDueDate pm today = some (advanceSpec d f u)) ∧
    (pm.scheduleType = PMScheduleType.FLOATING →
      calculateNextDueDate pm today = some (advanceSpec today f u)) ∧
    calculateNextDueDate basePm ⟨2024, 2, 15⟩ = some ⟨2024, 1, 31⟩ ∧
    calculateNextDueDate
      { basePm with scheduleType := PMScheduleType.FLOATING }
      ⟨2024, 2, 15⟩ = some ⟨2024, 3, 16⟩ := by
  refine ⟨?_, ?_, by decide, by decide⟩
  · intro hmode d hd
    exact calculateNextDueDate_fixed pm today f u d hmode hf hu hd
  · intro hmode
    exact calculateNextDueDate_floating pm today f u hmode hf hu

/-- C6 witness: the generic FIXED clause applied to the concrete
30-DAYS definition due 2024-01-01. -/
theorem c6_witness :
    calculateNextDueDate basePm ⟨2024, 2, 15⟩ =
      some (advanceSpec ⟨2024, 1, 1⟩ 30 PMFrequencyUnit.DAYS) :=
  (c6_fixed_floating basePm ⟨2024, 2, 15⟩ 30 PMFrequencyUnit.DAYS rfl rfl).1
    rfl ⟨2024, 1, 1⟩ rfl

/-- C7: for a TIME-triggered definition with `nextDueDate = dd` and lead
time `L = leadTimeDays ≥ 0`, whenever today passes the seasonal and
excluded-day gates, `_should_generate_wo` returns true exactly when
`today ≥ dd - L` (on date ordinals), i.e. it is false before the lead
window opens and true from then on. -/
theorem c7_time_lead_window (meters : List Meter)
    (pm : PreventiveMaintenance) (today dd : Date)
    (ht : pm.triggerType = PMTriggerType.TIME)
    (hD : pm.nextDueDate = some dd)
    (hs : seasonalBlocked pm today = false)
    (he : excludedBlocked pm today = false) :
    shouldGenerateWo meters pm today = true ↔
      (dd.toOrdinal : Int) - (pm.leadTimeDays : Int) ≤
        (today.toOrdinal : Int) := by
  unfold shouldGenerateWo
  rw [hD, ht, hs, he]
  simp only [Bool.false_eq_true, if_false]
  split
  · rename_i hlt
    constructor
    · intro hfalse
      exact absurd hfalse (by decide)
    · intro hle
      omega
  · rename_i hge
    constructor
    · intro _
      omega
    · intro _
      rfl

/-- C7 witness: the concrete TIME definition due 2024-01-01 with no lead
time is due on 2024-02-15. -/
theorem c7_witness : shouldGenerateWo [] basePm ⟨2024, 2, 15⟩ = true := by
  have h := c7_time_lead_window [] basePm ⟨2024, 2, 15⟩ ⟨2024, 1, 1⟩
    (by decide) (by decide) (by decide) (by decide)
  exact h.mpr (by decide)

/-- With no database call failing, `_generate_work_order` returns the new
id and mutates the PM exactly by setting `lastWoDate`, `lastWoId`, the
recomputed `nextDueDate`, and (in the meter branch) the meter baseline and
target. -/
theorem generateWorkOrder_ok_pm (meters : List Meter)
    (existingWos : List WorkOrder) (newId : Nat)
    (pm : PreventiveMaintenance) (today : Date) :
    ∃ lmr nmr : Option Int,
      (generateWorkOrder ⟨true, true, true⟩ meters existingWos newId pm
          today).woId = some newId ∧
      (generateWorkOrder ⟨true, true, true⟩ meters existingWos newId pm
          today).pm =
        { pm with
          lastWoDate := some today
          lastWoId := some newId
          nextDueDate := calculateNextDueDate pm today
          lastMeterReading := lmr
          nextMeterReading := nmr } := by
  unfold generateWorkOrder
  cases hmi : pm.meterId with
  | none =>
    exact ⟨pm.lastMeterReading, pm.nextMeterReading, rfl, rfl⟩
  | some mid =>
    cases hiv : pm.meterInterval with
    | none =>
      exact ⟨pm.lastMeterReading, pm.nextMeterReading, rfl, rfl⟩
    | some interval =>
      by_cases hz : (mid == 0 || interval == 0) = true
      · simp only [hz, if_true]
        exact ⟨pm.lastMeterReading, pm.nextMeterReading, rfl, rfl⟩
      · simp only [Bool.not_eq_true] at hz
        simp only [hz, Bool.false_eq_true, if_false, Bool.not_true]
        cases hfind : meters.find? (fun m => m.id == mid) with
        | none =>
          exact ⟨pm.lastMeterReading, pm.nextMeterReading, rfl, rfl⟩
        | some meter =>
          dsimp only
          cases hread : meter.lastReading with
          | none =>
            exact ⟨pm.lastMeterReading, pm.nextMeterReading, rfl, rfl⟩
          | some reading =>
            exact ⟨some reading, some (reading + interval), rfl, rfl⟩

/-- C4 as amended: immediate re-runs generate at most once per definition
only when the advanced schedule state is no longer due on the same day.
That holds e.g. for a FLOATING-mode TIME definition whose lead time is
smaller than its frequency in days: after one successful generation the
definition is no longer due, so a second `process_due_pms` pass skips it.
(FIXED-mode definitions with backlog intentionally re-generate once per
cycle until caught up, as the counterexample shows.) -/
theorem c4_amended (meters meters2 : List Meter)
    (existingWos : List WorkOrder) (newId : Nat)
    (pm : PreventiveMaintenance) (today : Date) (f : Nat)
    (hmode : pm.scheduleType = PMScheduleType.FLOATING)
    (hf : pm.frequency = some f)
    (hu : pm.frequencyUnit = some PMFrequencyUnit.DAYS)
    (hlead : pm.leadTimeDays < f)
    (hvalid : today.isValid = true) :
    shouldGenerateWo meters2
      ((generateWorkOrder ⟨true, true, true⟩ meters existingWos newId pm
        today).pm) today = false := by
  obtain ⟨lmr, nmr, hwo, hpm⟩ :=
    generateWorkOrder_ok_pm meters existingWos newId pm today
  rw [hpm]
  have hcalc :=
    calculateNextDueDate_floating pm today f PMFrequencyUnit.DAYS hmode hf hu
  have hadd : (advanceSpec today f PMFrequencyUnit.DAYS).toOrdinal =
      today.toOrdinal + f := by
    unfold advanceSpec
    exact Date.toOrdinal_addDays today f hvalid
  unfold shouldGenerateWo
  dsimp only
  rw [hcalc]
  dsimp only
  have hcond : (today.toOrdinal : Int) <
      ((advanceSpec today f PMFrequencyUnit.DAYS).toOrdinal : Int) -
        (pm.leadTimeDays : Int) := by
    rw [hadd]
    push_cast
    omega
  rw [if_pos hcond]

/-- C4 witness: the FLOATING variant of the concrete definition is not due
again right after generating. -/
theorem c4_witness :
    shouldGenerateWo []
      ((generateWorkOrder ⟨true, true, true⟩ [] [] 101
        { basePm with scheduleType := PMScheduleType.FLOATING }
        ⟨2024, 2, 15⟩).pm) ⟨2024, 2, 15⟩ = false :=
  c4_amended [] [] [] 101
    { basePm with scheduleType := PMScheduleType.FLOATING }
    ⟨2024, 2, 15⟩ 30 rfl rfl rfl (by decide) (by decide)

/-- C9 as amended: generation strictly advances `nextDueDate` for
FIXED-mode definitions with a frequency ≥ 1 and a unit configured (for any
of the four units); with frequency or unit missing the stored date instead
becomes null (see the counterexample), and FLOATING-mode generation inside
the lead window can move the date backwards. -/
theorem c9_amended (meters : List Meter) (existingWos : List WorkOrder)
    (newId : Nat) (pm : PreventiveMaintenance) (today : Date) (f : Nat)
    (u : PMFrequencyUnit) (d : Date)
    (hmode : pm.scheduleType = PMScheduleType.FIXED)
    (hf : pm.frequency = some f) (h1 : 1 ≤ f)
    (hu : pm.frequencyUnit = some u)
    (hd : pm.nextDueDate = some d) (hv : d.isValid = true) :
    ∃ d2, (generateWorkOrder ⟨true, true, true⟩ meters existingWos newId pm
        today).pm.nextDueDate = some d2 ∧ d.toOrdinal < d2.toOrdinal := by
  obtain ⟨lmr, nmr, hwo, hpm⟩ :=
    generateWorkOrder_ok_pm meters existingWos newId pm today
  rw [hpm]
  have hcalc := calculateNextDueDate_fixed pm today f u d hmode hf hu hd
  refine ⟨advanceSpec d f u, ?_, ?_⟩
  · dsimp only
    exact hcalc
  · cases u
    · unfold advanceSpec
      rw [Date.toOrdinal_addDays d f hv]
      omega
    · unfold advanceSpec
      rw [Date.toOrdinal_addDays d (7 * f) hv]
      omega
    · exact Date.toOrdinal_addMonths_lt d f hv h1
    · exact Date.toOrdinal_addYears_lt d f hv h1

/-- C9 witness: the concrete FIXED 30-DAYS definition strictly advances. -/
theorem c9_witness :
    ∃ d2, (generateWorkOrder ⟨true, true, true⟩ [] [] 101 basePm
        ⟨2024, 2, 15⟩).pm.nextDueDate = some d2 ∧
      (Date.mk 2024 1 1).toOrdinal < d2.toOrdinal :=
  c9_amended [] [] 101 basePm ⟨2024, 2, 15⟩ 30 PMFrequencyUnit.DAYS
    ⟨2024, 1, 1⟩ rfl rfl (by decide) rfl rfl (by decide)

def DbEvent.isGen : DbEvent → Bool
  | DbEvent.genWO _ _ => true
  | DbEvent.commit => false

/-- The per-definition transaction boundary the spec claims for one cycle:
between any two generation events there is a commit. -/
def commitBetweenGens (evs : List DbEvent) : Prop :=
  ∀ i j : Fin evs.length, i < j → (evs.get i).isGen = true →
    (evs.get j).isGen = true →
    ∃ k : Fin evs.length, i < k ∧ k < j ∧ evs.get k = DbEvent.commit

/-- C3 counterexample: one cycle over the two-definition store generates
for both definitions and only then issues the single commit of line 76 —
there is no commit between the two generations, so a failure there rolls
back both. -/
theorem c3_counterexample :
    ¬ commitBetweenGens
      (processDuePms envOk storeC3 ⟨2024, 2, 15⟩).events := by
  have hev : (processDuePms envOk storeC3 ⟨2024, 2, 15⟩).events =
      [DbEvent.genWO 1 101, DbEvent.genWO 2 102, DbEvent.commit] := by
    decide
  rw [hev]
  intro h
  rcases h ⟨0, by decide⟩ ⟨1, by decide⟩ (by decide) (by decide) (by decide)
    with ⟨k, hk1, hk2, _⟩
  simp [Fin.lt_def] at hk1 hk2
  omega

theorem processOnePm_events_extra (env : Nat → GenEnv)
    (controls : List SchedulerControl) (meters : List Meter) (today : Date)
    (st : LoopState) (pm : PreventiveMaintenance) :
    ∃ extra : List DbEvent,
      (processOnePm env controls meters today st pm).events =
        st.events ++ extra ∧ ∀ e ∈ extra, e.isGen = true := by
  unfold processOnePm
  dsimp only
  repeat' split
  all_goals try (refine ⟨[], ?_, ?_⟩ <;> simp <;> done)
  all_goals refine ⟨[DbEvent.genWO pm.id _], rfl, ?_⟩
  all_goals intro e he
  all_goals simp only [List.mem_singleton] at he
  all_goals subst he
  all_goals rfl

theorem foldl_events_gen (env : Nat → GenEnv)
    (controls : List SchedulerControl) (meters : List Meter)
    (today : Date) :
    ∀ (pms : List PreventiveMaintenance) (st : LoopState),
      (∀ e ∈ st.events, e.isGen = true) →
      ∀ e ∈ (pms.foldl (processOnePm env controls meters today) st).events,
        e.isGen = true := by
  intro pms
  induction pms with
  | nil =>
    intro st h e he
    exact h e he
  | cons pm rest ih =>
    intro st h e he
    simp only [List.foldl_cons] at he
    obtain ⟨extra, heq, hextra⟩ :=
      processOnePm_events_extra env controls meters today st pm
    refine ih (processOnePm env controls meters today st pm) ?_ e he
    intro e2 he2
    rw [heq] at he2
    rcases List.mem_append.mp he2 with h2 | h2
    · exact h e2 h2
    · exact hextra e2 h2

/-- C3 as amended: a `process_due_pms` cycle performs every generation
first and then issues exactly one commit, at the very end of the loop —
one transaction per cycle, not per definition (`process_due_plans` has the
same single `db.commit()` after its loop). -/
theorem c3_amended (env : Nat → GenEnv) (db : PMStore) (today : Date) :
    ∃ gens : List DbEvent,
      (processDuePms env db today).events = gens ++ [DbEvent.commit] ∧
      ∀ e ∈ gens, e.isGen = true := by
  refine ⟨(db.pms.foldl (processOnePm env db.controls db.meters today)
    { pms := [], workOrders := db.workOrders,
      workOrderTasks := db.workOrderTasks, nextWoId := db.nextWoId,
      generated := [], events := [] }).events, rfl, ?_⟩
  refine foldl_events_gen env db.controls db.meters today db.pms _ ?_
  intro e he
  simp at he

/-- The property C10 claims of the inserted weekly plan. -/
def isWeeklyTarget (orgId sid : Nat) (today : Date)
    (p : CycleCountPlan) : Prop :=
  p.organizationId = orgId ∧ p.templateType = some "WEEKLY_TRANSACTED" ∧
  p.storeroomId = some sid ∧ p.isActive = true ∧ p.isPaused = false ∧
  p.frequencyValue = 7 ∧ p.frequencyUnit = CycleCountFrequencyUnit.DAYS ∧
  p.usedInLastDays = some 7 ∧ p.transactedOnly = true ∧
  p.includeZeroMovement = false ∧ p.nextRunDate = some today

/-- The property C10 claims of the inserted monthly plan. -/
def isMonthlyTarget (orgId sid : Nat) (today : Date)
    (p : CycleCountPlan) : Prop :=
  p.organizationId = orgId ∧ p.templateType = some "MONTHLY_TRANSACTED" ∧
  p.storeroomId = some sid ∧ p.isActive = true ∧ p.isPaused = false ∧
  p.frequencyValue = 1 ∧ p.frequencyUnit = CycleCountFrequencyUnit.MONTHS ∧
  p.usedInLastDays = some 30 ∧ p.transactedOnly = true ∧
  p.includeZeroMovement = false ∧ p.nextRunDate = some today

theorem weeklyDefaultPlan_target (orgId sid nid : Nat) (today : Date) :
    isWeeklyTarget orgId sid today (weeklyDefaultPlan orgId sid nid today) :=
  ⟨rfl, rfl, rfl, rfl, rfl, rfl, rfl, rfl, rfl, rfl, rfl⟩

theorem monthlyDefaultPlan_target (orgId sid nid : Nat) (today : Date) :
    isMonthlyTarget orgId sid today
      (monthlyDefaultPlan orgId sid nid today) :=
  ⟨rfl, rfl, rfl, rfl, rfl, rfl, rfl, rfl, rfl, rfl, rfl⟩

theorem ensureOrgDefaults_shape (db : CCStore) (today : Date)
    (acc res : List CycleCountPlan × Nat) (org : Organization)
    (hok : ensureOrgDefaults db today acc org = Except.ok res) :
    ∃ added : List CycleCountPlan, res.1 = acc.1 ++ added ∧
      ∀ p ∈ added, ∃ sid k,
        p = weeklyDefaultPlan org.id sid k today ∨
        p = monthlyDefaultPlan org.id sid k today := by
  unfold ensureOrgDefaults at hok
  split at hok
  · simp only [Except.ok.injEq] at hok
    subst hok
    exact ⟨[], by simp, by simp⟩
  · rename_i storeroom heq
    dsimp only at hok
    split at hok
    · split at hok
      · simp only [Except.ok.injEq] at hok
        subst hok
        refine ⟨[weeklyDefaultPlan org.id storeroom.id acc.2 today,
                 monthlyDefaultPlan org.id storeroom.id (acc.2 + 1) today],
          by simp, ?_⟩
        intro p hp
        simp only [List.mem_cons, List.not_mem_nil, or_false] at hp
        rcases hp with hp | hp
        · exact ⟨storeroom.id, acc.2, Or.inl hp⟩
        · exact ⟨storeroom.id, acc.2 + 1, Or.inr hp⟩
      · simp only [Except.ok.injEq] at hok
        subst hok
        refine ⟨[weeklyDefaultPlan org.id storeroom.id acc.2 today],
          by simp, ?_⟩
        intro p hp
        simp only [List.mem_singleton] at hp
        exact ⟨storeroom.id, acc.2, Or.inl hp⟩
    · split at hok
      · simp only [Except.ok.injEq] at hok
        subst hok
        refine ⟨[monthlyDefaultPlan org.id storeroom.id acc.2 today],
          by simp, ?_⟩
        intro p hp
        simp only [List.mem_singleton] at hp
        exact ⟨storeroom.id, acc.2, Or.inr hp⟩
      · simp only [Except.ok.injEq] at hok
        subst hok
        exact ⟨[], by simp, by simp⟩
  · exact absurd hok (by simp)

theorem ensureFold_mono (db : CCStore) (today : Date) :
    ∀ (orgs : List Organization) (acc res : List CycleCountPlan × Nat),
      ensureFold db today orgs acc = Except.ok res →
      ∀ p ∈ acc.1, p ∈ res.1 := by
  intro orgs
  induction orgs with
  | nil =>
    intro acc res h p hp
    simp only [ensureFold, Except.ok.injEq] at h
    rw [← h]
    exact hp
  | cons org rest ih =>
    intro acc res h p hp
    unfold ensureFold at h
    cases hstep : ensureOrgDefaults db today acc org with
    | ok acc1 =>
      rw [hstep] at h
      obtain ⟨added, heq, _⟩ :=
        ensureOrgDefaults_shape db today acc acc1 org hstep
      refine ih acc1 res h p ?_
      rw [heq]
      exact List.mem_append_left added hp
    | error e =>
      rw [hstep] at h
      simp at h

theorem ensureOrgDefaults_weekly (db : CCStore) (today : Date)
    (acc res : List CycleCountPlan × Nat) (org : Organization)
    (s : Storeroom)
    (hfil : db.storerooms.filter
      (fun r => r.organizationId == org.id && r.isDefault) = [s])
    (hok : ensureOrgDefaults db today acc org = Except.ok res)
    (hnone : ∀ p ∈ acc.1, ¬(p.organizationId = org.id ∧
      p.templateType = some "WEEKLY_TRANSACTED")) :
    ∃ k, weeklyDefaultPlan org.id s.id k today ∈ res.1 := by
  have hcnt : ((acc.1.filter (fun p =>
      p.organizationId == org.id &&
        p.templateType == some "WEEKLY_TRANSACTED")).length == 0) = true := by
    rw [beq_iff_eq, List.length_eq_zero, List.filter_eq_nil_iff]
    intro p hp
    have h := hnone p hp
    simp only [Bool.and_eq_true, beq_iff_eq]
    exact h
  unfold ensureOrgDefaults at hok
  rw [hfil] at hok
  dsimp only at hok
  rw [hcnt] at hok
  simp only [if_true] at hok
  split at hok
  · simp only [Except.ok.injEq] at hok
    subst hok
    refine ⟨acc.2, ?_⟩
    simp
  · simp only [Except.ok.injEq] at hok
    subst hok
    refine ⟨acc.2, ?_⟩
    simp

theorem ensureOrgDefaults_monthly (db : CCStore) (today : Date)
    (acc res : List CycleCountPlan × Nat) (org : Organization)
    (s : Storeroom)
    (hfil : db.storerooms.filter
      (fun r => r.organizationId == org.id && r.isDefault) = [s])
    (hok : ensureOrgDefaults db today acc org = Except.ok res)
    (hnone : ∀ p ∈ acc.1, ¬(p.organizationId = org.id ∧
      p.templateType = some "MONTHLY_TRANSACTED")) :
    ∃ k, monthlyDefaultPlan org.id s.id k today ∈ res.1 := by
  unfold ensureOrgDefaults at hok
  rw [hfil] at hok
  dsimp only at hok
  split at hok <;> rename_i hw
  · have hcnt : (((acc.1 ++
        [weeklyDefaultPlan org.id s.id acc.2 today]).filter (fun p =>
        p.organizationId == org.id &&
          p.templateType == some "MONTHLY_TRANSACTED")).length == 0) =
        true := by
      rw [beq_iff_eq, List.length_eq_zero, List.filter_eq_nil_iff]
      intro p hp
      rcases List.mem_append.mp hp with hp | hp
      · have h := hnone p hp
        simp only [Bool.and_eq_true, beq_iff_eq]
        exact h
      · simp only [List.mem_singleton] at hp
        subst hp
        simp [weeklyDefaultPlan]
    rw [hcnt] at hok
    simp only [if_true] at hok
    simp only [Except.ok.injEq] at hok
    subst hok
    refine ⟨acc.2 + 1, ?_⟩
    simp
  · have hcnt : ((acc.1.filter (fun p =>
        p.organizationId == org.id &&
          p.templateType == some "MONTHLY_TRANSACTED")).length == 0) =
        true := by
      rw [beq_iff_eq, List.length_eq_zero, List.filter_eq_nil_iff]
      intro p hp
      have h := hnone p hp
      simp only [Bool.and_eq_true, beq_iff_eq]
      exact h
    rw [hcnt] at hok
    simp only [if_true] at hok
    simp only [Except.ok.injEq] at hok
    subst hok
    refine ⟨acc.2, ?_⟩
    simp

theorem ensureFold_weekly (db : CCStore) (today : Date)
    (org : Organization) (s : Storeroom)
    (hfil : db.storerooms.filter
      (fun r => r.organizationId == org.id && r.isDefault) = [s]) :
    ∀ (orgs : List Organization) (acc res : List CycleCountPlan × Nat),
      org ∈ orgs →
      ensureFold db today orgs acc = Except.ok res →
      ((∀ p ∈ acc.1, ¬(p.organizationId = org.id ∧
          p.templateType = some "WEEKLY_TRANSACTED")) ∨
        (∃ p ∈ acc.1, isWeeklyTarget org.id s.id today p)) →
      ∃ p ∈ res.1, isWeeklyTarget org.id s.id today p := by
  intro orgs
  induction orgs with
  | nil =>
    intro acc res hmem hfold hinv
    exact absurd hmem (List.not_mem_nil org)
  | cons o rest ih =>
    intro acc res hmem hfold hinv
    unfold ensureFold at hfold
    cases hstep : ensureOrgDefaults db today acc o with
    | error e =>
      rw [hstep] at hfold
      simp at hfold
    | ok acc1 =>
      rw [hstep] at hfold
      rcases hinv with hnone | ⟨p, hp, htarget⟩
      · by_cases ho : o.id = org.id
        · have hfil' : db.storerooms.filter
              (fun r => r.organizationId == o.id && r.isDefault) = [s] := by
            rw [ho]
            exact hfil
          have hnone' : ∀ p ∈ acc.1, ¬(p.organizationId = o.id ∧
              p.templateType = some "WEEKLY_TRANSACTED") := by
            rw [ho]
            exact hnone
          obtain ⟨k, hk⟩ := ensureOrgDefaults_weekly db today acc acc1 o s
            hfil' hstep hnone'
          refine ⟨weeklyDefaultPlan o.id s.id k today, ?_, ?_⟩
          · exact ensureFold_mono db today rest acc1 res hfold _ hk
          · rw [ho]
            exact weeklyDefaultPlan_target org.id s.id k today
        · rcases List.mem_cons.mp hmem with heq | hmem'
          · subst heq
            exact absurd rfl ho
          · obtain ⟨added, heq, hadded⟩ :=
              ensureOrgDefaults_shape db today acc acc1 o hstep
            refine ih acc1 res hmem' hfold (Or.inl ?_)
            intro p hp
            rw [heq] at hp
            rcases List.mem_append.mp hp with hp | hp
            · exact hnone p hp
            · obtain ⟨sid, k, hcase⟩ := hadded p hp
              rcases hcase with rfl | rfl
              · rintro ⟨h1, _⟩
                exact ho h1
              · rintro ⟨h1, _⟩
                exact ho h1
      · refine ⟨p, ?_, htarget⟩
        have hp1 : p ∈ acc1.1 := by
          obtain ⟨added, heq, _⟩ :=
            ensureOrgDefaults_shape db today acc acc1 o hstep
          rw [heq]
          exact List.mem_append_left _ hp
        exact ensureFold_mono db today rest acc1 res hfold p hp1

theorem ensureFold_monthly (db : CCStore) (today : Date)
    (org : Organization) (s : Storeroom)
    (hfil : db.storerooms.filter
      (fun r => r.organizationId == org.id && r.isDefault) = [s]) :
    ∀ (orgs : List Organization) (acc res : List CycleCountPlan × Nat),
      org ∈ orgs →
      ensureFold db today orgs acc = Except.ok res →
      ((∀ p ∈ acc.1, ¬(p.organizationId = org.id ∧
          p.templateType = some "MONTHLY_TRANSACTED")) ∨
        (∃ p ∈ acc.1, isMonthlyTarget org.id s.id today p)) →
      ∃ p ∈ res.1, isMonthlyTarget org.id s.id today p := by
  intro orgs
  induction orgs with
  | nil =>
    intro acc res hmem hfold hinv
    exact absurd hmem (List.not_mem_nil org)
  | cons o rest ih =>
    intro acc res hmem hfold hinv
    unfold ensureFold at hfold
    cases hstep : ensureOrgDefaults db today acc o with
    | error e =>
      rw [hstep] at hfold
      simp at hfold
    | ok acc1 =>
      rw [hstep] at hfold
      rcases hinv with hnone | ⟨p, hp, htarget⟩
      · by_cases ho : o.id = org.id
        · have hfil' : db.storerooms.filter
              (fun r => r.organizationId == o.id && r.isDefault) = [s] := by
            rw [ho]
            exact hfil
          have hnone' : ∀ p ∈ acc.1, ¬(p.organizationId = o.id ∧
              p.templateType = some "MONTHLY_TRANSACTED") := by
            rw [ho]
            exact hnone
          obtain ⟨k, hk⟩ := ensureOrgDefaults_monthly db today acc acc1 o s
            hfil' hstep hnone'
          refine ⟨monthlyDefaultPlan o.id s.id k today, ?_, ?_⟩
          · exact ensureFold_mono db today rest acc1 res hfold _ hk
          · rw [ho]
            exact monthlyDefaultPlan_target org.id s.id k today
        · rcases List.mem_cons.mp hmem with heq | hmem'
          · subst heq
            exact absurd rfl ho
          · obtain ⟨added, heq, hadded⟩ :=
              ensureOrgDefaults_shape db today acc acc1 o hstep
            refine ih acc1 res hmem' hfold (Or.inl ?_)
            intro p hp
            rw [heq] at hp
            rcases List.mem_append.mp hp with hp | hp
            · exact hnone p hp
            · obtain ⟨sid, k, hcase⟩ := hadded p hp
              rcases hcase with rfl | rfl
              · rintro ⟨h1, _⟩
                exact ho h1
              · rintro ⟨h1, _⟩
                exact ho h1
      · refine ⟨p, ?_, htarget⟩
        have hp1 : p ∈ acc1.1 := by
          obtain ⟨added, heq, _⟩ :=
            ensureOrgDefaults_shape db today acc acc1 o hstep
          rw [heq]
          exact List.mem_append_left _ hp
        exact ensureFold_mono db today rest acc1 res hfold p hp1

/-- C10: before evaluating due plans (`process_due_plans` runs
`_ensure_default_plans` first), a successful `_ensure_default_plans` pass
gives every organization that has exactly one default storeroom and no plan
of template type WEEKLY_TRANSACTED (respectively MONTHLY_TRANSACTED) an
active, non-paused plan scoped to that storeroom with frequency 7 DAYS and
a 7-day usage lookback (respectively 1 MONTH and a 30-day lookback),
transacted-only, zero-movement excluded, and `nextRunDate = today`. -/
theorem c10_default_plans (db : CCStore) (today : Date) (db2 : CCStore)
    (org : Organization) (s : Storeroom)
    (horg : org ∈ db.orgs)
    (hs : db.storerooms.filter
      (fun r => r.organizationId == org.id && r.isDefault) = [s])
    (hok : ensureDefaultPlans db today = Except.ok db2) :
    ((∀ p ∈ db.plans, ¬(p.organizationId = org.id ∧
        p.templateType = some "WEEKLY_TRANSACTED")) →
      ∃ p ∈ db2.plans, isWeeklyTarget org.id s.id today p) ∧
    ((∀ p ∈ db.plans, ¬(p.organizationId = org.id ∧
        p.templateType = some "MONTHLY_TRANSACTED")) →
      ∃ p ∈ db2.plans, isMonthlyTarget org.id s.id today p) := by
  unfold ensureDefaultPlans at hok
  cases hfold : ensureFold db today db.orgs (db.plans, db.nextPlanId) with
  | error e =>
    rw [hfold] at hok
    simp at hok
  | ok res =>
    rw [hfold] at hok
    obtain ⟨plans, nid⟩ := res
    simp only [Except.ok.injEq] at hok
    subst hok
    constructor
    · intro hnone
      exact ensureFold_weekly db today org s hs db.orgs
        (db.plans, db.nextPlanId) (plans, nid) horg hfold (Or.inl hnone)
    · intro hnone
      exact ensureFold_monthly db today org s hs db.orgs
        (db.plans, db.nextPlanId) (plans, nid) horg hfold (Or.inl hnone)

/-- The store `_ensure_default_plans` produces from `storeC10`. -/
def storeC10After : CCStore :=
  { storeC10 with
    plans := [weeklyDefaultPlan 1 1 10 ⟨2024, 1, 1⟩,
              monthlyDefaultPlan 1 1 11 ⟨2024, 1, 1⟩]
    nextPlanId := 12 }

/-- C10 witness: on the concrete tenant with a default storeroom and no
plans, both default plans are inserted with the claimed fields. -/
theorem c10_witness :
    (∃ p ∈ storeC10After.plans, isWeeklyTarget 1 1 ⟨2024, 1, 1⟩ p) ∧
    (∃ p ∈ storeC10After.plans, isMonthlyTarget 1 1 ⟨2024, 1, 1⟩ p) := by
  have h := c10_default_plans storeC10 ⟨2024, 1, 1⟩ storeC10After ⟨1⟩
    ⟨1, 1, true⟩ (by simp [storeC10, storeC2]) (by decide) (by rfl)
  exact ⟨h.1 (by simp [storeC10, storeC2]), h.2 (by simp [storeC10, storeC2])⟩
